import Mathlib

/-!
Shallow embedding of the message-handling workflow of `src/main.py`.

The program is a LangGraph workflow over a single mutable `AgentState`
mapping (a `TypedDict`); every key of the mapping is initialised by
`handle_incoming_message` (lines 446-467), so the state is modelled as a
Lean structure whose fields are `Option`-typed exactly where the Python
values may be `None`.  Python truthiness of optional strings (`None` and
`""` are falsy) is modelled by `truthy`.

External effects are modelled as oracle inputs:
  * the LLM classifier call (`structured_llm.invoke`, line 186) is an
    `Except Unit QueryAnalysis` (error = the call raised);
  * `meili_index.add_documents` (line 288) is an `Except Unit TaskInfo`,
    where `TaskInfo` captures the two recognised response envelopes
    (object with a `task_uid` attribute / dict with key `taskUid`) plus
    an unrecognised shape;
  * `meili_index.search` (line 333) is an `Except Unit (List Hit)`;
  * `uuid.uuid4()` (line 257) is a fresh-id string parameter.
Each node returns, besides the updated state, the call it made to its
backend (so that claims about a backend never being invoked are statable).
The `whatsapp_message_object` field and the numeric representation of
prices are irrelevant to every claim: prices are carried, never computed
with, so they are embedded as `Option Int`.
-/

/-- Python truthiness of an optional string: `None` and `""` are falsy. -/
def truthy : Option String → Bool
  | none => false
  | some s => s != ""

/-- Result of the structured LLM call (`QueryAnalysis`, lines 89-96). -/
structure QueryAnalysis where
  intent : String
  item_name : Option String
  location : Option String
  price : Option Int
  currency : Option String
deriving Repr, DecidableEq

/-- A catalog hit / stored document.  Fields are optional because the
formatting code reads them with `hit.get(key, default)` (line 343). -/
structure Hit where
  name : Option String
  price : Option Int
  currency : Option String
  vendor : Option String
deriving Repr, DecidableEq

/-- The `product_data` dict built at lines 256-265. -/
structure ProductData where
  id : String
  name : String
  description : String
  price : Option Int
  currency : Option String
  category : String
  vendor : Option String
  media_path : Option String
deriving Repr, DecidableEq

/-- The `AgentState` TypedDict (lines 104-130), minus the opaque
`whatsapp_message_object`.  Every key is present in every reachable
state, so a structure is a faithful model of the runtime dict. -/
structure AgentState where
  sender_id : Option String
  incoming_message_type : Option String
  incoming_text : Option String
  incoming_media_id : Option String
  incoming_media_mime_type : Option String
  incoming_media_filename : Option String
  incoming_media_path : Option String
  intent : Option String
  item_name : Option String
  location : Option String
  price : Option Int
  currency : Option String
  description : Option String
  product_to_ingest : Option ProductData
  meili_filters : Option String
  search_results : Option (List Hit)
  response : Option String
  meili_task_id : Option String
  meili_task_status : Option String
deriving Repr, DecidableEq

/-- The two recognised Meilisearch `add_documents` response envelopes
(lines 292-295) plus an unrecognised shape (line 296). -/
inductive TaskInfo where
  | newStyle (task_uid : String)
  | legacyDict (taskUid : String)
  | unrecognized
deriving Repr, DecidableEq

/-- Task-id extraction of lines 292-299: `task_uid` attribute, else the
`taskUid` key, else failure. -/
def extractTaskId : TaskInfo → Option String
  | TaskInfo.newStyle u => some u
  | TaskInfo.legacyDict u => some u
  | TaskInfo.unrecognized => none

/-- Routing decisions of `route_after_intent_analysis`; `terminal` is
LangGraph's `END`. -/
inductive RouteDecision where
  | search_meili
  | structure_ingestion_data
  | terminal
deriving Repr, DecidableEq

-- Response strings of the nodes, verbatim from `src/main.py`.

/-- Line 151. -/
def msgNoContent : String :=
  "Sorry, I couldn\x27t understand the message content. Please send text or media."

/-- Line 222 (the classifier call raised). -/
def msgLLMFail : String :=
  "Sorry, I had trouble analyzing the details of your request."

/-- Line 215. -/
def msgGreeting : String := "Hello there! How can I help you?"

/-- Line 217. -/
def msgUnknown : String :=
  "Sorry, I\x27m not sure how to help with that. I can search for products or add new ones if you provide details."

/-- Line 373. -/
def msgNoItem : String := "You asked to search, but didn\x27t specify an item."

/-- Line 387. -/
def msgIssue : String := "Sorry, I encountered an issue processing your request."

/-- Line 243. -/
def msgMissing : String := "Missing product name/description for ingestion."

/-- Line 282. -/
def msgNoProduct : String := "Error: Could not structure product data for storage."

/-- Line 308. -/
def msgAddErr : String := "Sorry, there was an error adding the product to the catalog."

/-- Line 298. -/
def msgTaskIdErr : String := "Error: Failed to get task ID after submitting product."

/-- Line 323. -/
def msgNoQuery : String := "Sorry, I couldn\x27t determine what to search for."

/-- Line 352. -/
def msgSearchErr : String := "Sorry, there was an error searching."

/-- `analyze_intent_node` (lines 138-225).  The second component is the
text content the LLM classifier was invoked with (`none` = the classifier
was not invoked; the prompt of lines 175-185 embeds exactly this text).
The defensive `else` of lines 166-170 has the same guard as the
no-content check of line 148 and is therefore unreachable; it is not
duplicated here. -/
def analyze_intent_node (cl : Except Unit QueryAnalysis) (s : AgentState) :
    AgentState × Option String :=
  if truthy s.incoming_text = false ∧ truthy s.incoming_media_id = false then
    ({ s with intent := some "error", response := some msgNoContent }, none)
  else
    -- line 158: intent pre-set before the LLM call when media is present
    let s1 := if truthy s.incoming_media_id then
                { s with intent := some "ingest_product" } else s
    -- line 160: empty caption replaced by "" for the LLM
    let textContent : String :=
      if truthy s.incoming_media_id ∧ truthy s.incoming_text = false then ""
      else s.incoming_text.getD ""
    match cl with
    | Except.error _ =>
        -- lines 219-222: the invoke raised; no post-call assignment ran
        ({ s1 with intent := some "error", response := some msgLLMFail }, some textContent)
    | Except.ok a =>
        let media := truthy s.incoming_media_id
        -- lines 189-195: media presence overrides the LLM intent
        let intent : Option String :=
          if media then some "ingest_product" else some a.intent
        -- line 202
        let location : Option String :=
          if intent = some "query_product" ∧ media = false then a.location else none
        -- line 204: description is the (possibly emptied) text content
        let description : Option String :=
          if intent = some "ingest_product" then some textContent else none
        -- lines 207-211
        let filters : Option String :=
          if intent = some "query_product" ∧ truthy location then
            some ("vendor = \x27" ++ location.getD "" ++ "\x27")
          else none
        -- lines 214-217
        let response : Option String :=
          if intent = some "greeting" then some msgGreeting
          else if intent = some "unknown" then some msgUnknown
          else s1.response
        ({ s1 with intent := intent, item_name := a.item_name, price := a.price,
                   currency := a.currency, location := location,
                   description := description, meili_filters := filters,
                   response := response }, some textContent)

/-- `route_after_intent_analysis` (lines 356-388).  LangGraph passes the
state by reference, so the conditional-edge function can mutate it; the
returned state is the (possibly mutated) input. -/
def route_after_intent_analysis (s : AgentState) : AgentState × RouteDecision :=
  if s.intent = some "query_product" then
    if truthy s.item_name then (s, RouteDecision.search_meili)
    else if truthy s.response then (s, RouteDecision.terminal)
    else ({ s with response := some msgNoItem }, RouteDecision.terminal)
  else if s.intent = some "ingest_product" then
    (s, RouteDecision.structure_ingestion_data)
  else if s.intent = some "greeting" then (s, RouteDecision.terminal)
  else if s.intent = some "unknown" then (s, RouteDecision.terminal)
  else if truthy s.response then (s, RouteDecision.terminal)
  else ({ s with response := some msgIssue }, RouteDecision.terminal)

/-- First line of a string, as `description.split(chr 10)[0]` (line 249). -/
def firstLine (t : String) : String := (t.splitOn "\n").headD ""

/-- `structure_ingestion_data_node` (lines 227-272).  Line 236 reads
`state.get(currency-key, UGX-literal)`: `dict.get` returns the default
only when the KEY is absent, and every key of `AgentState` is present in
every reachable state (the handler initialises them all), so the stored
value — possibly `None` — is returned and the `"UGX"` default is dead;
the field read below is therefore exactly `s.currency`. -/
def structure_ingestion_data_node (freshId : String) (s : AgentState) : AgentState :=
  if truthy s.item_name = false ∧ truthy s.description = false then
    -- lines 240-245
    { s with response := some msgMissing, product_to_ingest := none }
  else
    -- lines 248-253 (the final "Unknown Item" fallback is dead: it needs
    -- both fields falsy, which the guard above already caught)
    let item_name : String :=
      if truthy s.item_name = false ∧ truthy s.description then
        (firstLine (s.description.getD "")).take 50
      else if truthy s.item_name = false then "Unknown Item"
      else s.item_name.getD ""
    let pd : ProductData :=
      { id := freshId
        name := item_name
        description := s.description.getD ""
        price := s.price
        currency := s.currency
        category := "Unknown"
        vendor := s.sender_id
        media_path := s.incoming_media_path }
    { s with product_to_ingest := some pd }

/-- `add_product_to_meili_node` (lines 274-311).  The Bool records
whether the backend write `add_documents` was invoked (it is the first
statement of the `try`, so it is invoked exactly when `product_to_ingest`
is truthy — a built product dict is never empty, hence never falsy). -/
def add_product_to_meili_node (res : Except Unit TaskInfo) (s : AgentState) :
    AgentState × Bool :=
  match s.product_to_ingest with
  | none => ({ s with response := some msgNoProduct }, false)
  | some _ =>
    match res with
    | Except.error _ =>
        ({ s with response := some msgAddErr }, true)
    | Except.ok ti =>
        match extractTaskId ti with
        | none => ({ s with response := some msgTaskIdErr }, true)
        | some tid =>
            ({ s with meili_task_id := some tid,
                      meili_task_status := some "enqueued" }, true)

/-- Hit line of the formatted search reply (lines 342-345). -/
def formatHit (h : Hit) : String :=
  "- " ++ h.name.getD "N/A" ++ " (" ++ toString (h.price.getD 0) ++ " " ++
    h.currency.getD "" ++ ", Vendor: " ++ h.vendor.getD "N/A" ++ ")"

/-- `search_meilisearch_node` (lines 313-353).  The Bool records whether
the backend `search` call was made. -/
def search_meilisearch_node (res : Except Unit (List Hit)) (s : AgentState) :
    AgentState × Bool :=
  if truthy s.item_name = false ∨ s.intent = some "error" then
    -- lines 321-325: fallback only fills a falsy response
    ({ s with response := if truthy s.response then s.response else some msgNoQuery,
              search_results := some [] }, false)
  else
    let q := s.item_name.getD ""
    match res with
    | Except.error _ =>
        -- lines 349-352
        ({ s with search_results := some [], response := some msgSearchErr }, true)
    | Except.ok hits =>
        if hits = [] then
          -- lines 338-339
          ({ s with search_results := some hits,
                    response := some ("I couldn\x27t find any \x27" ++ q ++ "\x27" ++
                      (if truthy s.location then " in " ++ s.location.getD "" ++ "."
                       else ".")) }, true)
        else
          -- lines 341-347
          ({ s with search_results := some hits,
                    response := some ("Found these results for \x27" ++ q ++ "\x27" ++
                      (if truthy s.location then " in " ++ s.location.getD "" else "")
                      ++ ":\n" ++
                      String.intercalate "\n" ((hits.take 3).map formatHit)) }, true)

/-- The external results a single run consumes. -/
structure Oracles where
  classify : Except Unit QueryAnalysis
  freshId : String
  addDoc : Except Unit TaskInfo
  search : Except Unit (List Hit)

/-- Outcome of one graph run: final state, the classifier call (text it
was invoked with, `none` = not invoked), whether `add_documents` and
`search` were invoked, and the trace of states after each executed step
(initial state first). -/
structure RunResult where
  final : AgentState
  classifierCall : Option String
  addDocumentsCalled : Bool
  searchCalled : Bool
  trace : List AgentState
deriving Repr

/-- The compiled graph (lines 390-421): entry `analyze_intent`,
conditional edges by `route_after_intent_analysis`, the query branch
`search_meili -> END`, and the ingestion branch
`structure_ingestion_data -> add_product_to_meili -> END` (both edges
unconditional). -/
def runGraph (o : Oracles) (s0 : AgentState) : RunResult :=
  let a := analyze_intent_node o.classify s0
  let s1 := a.1
  let rt := route_after_intent_analysis s1
  let s2 := rt.1
  match rt.2 with
  | RouteDecision.search_meili =>
      let sr := search_meilisearch_node o.search s2
      { final := sr.1, classifierCall := a.2, addDocumentsCalled := false,
        searchCalled := sr.2, trace := [s0, s1, s2, sr.1] }
  | RouteDecision.structure_ingestion_data =>
      let s3 := structure_ingestion_data_node o.freshId s2
      let ad := add_product_to_meili_node o.addDoc s3
      { final := ad.1, classifierCall := a.2, addDocumentsCalled := ad.2,
        searchCalled := false, trace := [s0, s1, s2, s3, ad.1] }
  | RouteDecision.terminal =>
      { final := s2, classifierCall := a.2, addDocumentsCalled := false,
        searchCalled := false, trace := [s0, s1, s2] }

/-- The initial state built by `handle_incoming_message` (lines 446-467),
after the transport layer has resolved text/caption and media fields:
every workflow-owned field starts `none`. -/
def mkInitialState (sender mtype : String)
    (text mediaId mime fname mpath : Option String) : AgentState :=
  { sender_id := some sender
    incoming_message_type := some mtype
    incoming_text := text
    incoming_media_id := mediaId
    incoming_media_mime_type := mime
    incoming_media_filename := fname
    incoming_media_path := mpath
    intent := none
    item_name := none
    location := none
    price := none
    currency := none
    description := none
    product_to_ingest := none
    meili_filters := none
    search_results := none
    response := none
    meili_task_id := none
    meili_task_status := none }

/-!
Helper lemmas shared by the claim theorems below.
-/

/-- Relation between two states of a run trace: a response set at the
earlier state is still present unchanged at the later one, except for
the single overwrite the Catalog Writer node performs on the
missing-fields ingestion path. -/
def respStable (a b : AgentState) : Prop :=
  ∀ r, a.response = some r →
    b.response = some r ∨ (r = msgMissing ∧ b.response = some msgNoProduct)

/-- The no-content short-circuit of lines 146-152. -/
theorem analyze_no_content (cl : Except Unit QueryAnalysis) (s : AgentState)
    (h1 : truthy s.incoming_text = false) (h2 : truthy s.incoming_media_id = false) :
    analyze_intent_node cl s =
      ({ s with intent := some "error", response := some msgNoContent }, none) := by
  unfold analyze_intent_node
  rw [if_pos (And.intro h1 h2)]

/-- A state whose intent is the error string and whose response is truthy
is routed to the terminal marker untouched (lines 384-388). -/
theorem route_error_truthy (s : AgentState) (hi : s.intent = some "error")
    (hr : truthy s.response = true) :
    route_after_intent_analysis s = (s, RouteDecision.terminal) := by
  simp [route_after_intent_analysis, hi, hr]

/-- The router leaves a state with a truthy response untouched: every
response fill is guarded by a falsy-response check. -/
theorem route_id_of_truthy (s : AgentState) (ht : truthy s.response = true) :
    (route_after_intent_analysis s).1 = s := by
  unfold route_after_intent_analysis
  by_cases h1 : s.intent = some "query_product" <;>
  by_cases h2 : s.intent = some "ingest_product" <;>
  by_cases h3 : s.intent = some "greeting" <;>
  by_cases h4 : s.intent = some "unknown" <;>
  by_cases h5 : truthy s.item_name = true <;>
    simp_all

/-- A search decision is only produced for query intent, and the state
then leaves the router untouched (lines 365-369). -/
theorem route_search_facts (s : AgentState)
    (h : (route_after_intent_analysis s).2 = RouteDecision.search_meili) :
    s.intent = some "query_product" ∧ (route_after_intent_analysis s).1 = s := by
  unfold route_after_intent_analysis at h ⊢
  by_cases h1 : s.intent = some "query_product" <;>
  by_cases h2 : s.intent = some "ingest_product" <;>
  by_cases h3 : s.intent = some "greeting" <;>
  by_cases h4 : s.intent = some "unknown" <;>
  by_cases h5 : truthy s.item_name = true <;>
  by_cases h6 : truthy s.response = true <;>
    simp_all

/-- A structuring decision is only produced for ingest intent, and the
state then leaves the router untouched (lines 375-377). -/
theorem route_structure_facts (s : AgentState)
    (h : (route_after_intent_analysis s).2 = RouteDecision.structure_ingestion_data) :
    s.intent = some "ingest_product" ∧ (route_after_intent_analysis s).1 = s := by
  unfold route_after_intent_analysis at h ⊢
  by_cases h1 : s.intent = some "query_product" <;>
  by_cases h2 : s.intent = some "ingest_product" <;>
  by_cases h3 : s.intent = some "greeting" <;>
  by_cases h4 : s.intent = some "unknown" <;>
  by_cases h5 : truthy s.item_name = true <;>
  by_cases h6 : truthy s.response = true <;>
    simp_all

/-- After the classification step on a freshly initialised state, the
response is either still unset, or it is one of the non-empty canned
strings and the intent is then error, greeting or unknown. -/
theorem analyze_initial_cases (cl : Except Unit QueryAnalysis)
    (sender mtype : String) (text mediaId mime fname mpath : Option String) :
    ((analyze_intent_node cl
        (mkInitialState sender mtype text mediaId mime fname mpath)).1.response = none) ∨
    (∃ r, (analyze_intent_node cl
        (mkInitialState sender mtype text mediaId mime fname mpath)).1.response = some r ∧
      r ≠ "" ∧
      ((analyze_intent_node cl
          (mkInitialState sender mtype text mediaId mime fname mpath)).1.intent = some "error" ∨
       (analyze_intent_node cl
          (mkInitialState sender mtype text mediaId mime fname mpath)).1.intent = some "greeting" ∨
       (analyze_intent_node cl
          (mkInitialState sender mtype text mediaId mime fname mpath)).1.intent = some "unknown")) := by
  by_cases hg : truthy text = false ∧ truthy mediaId = false
  · right
    refine ⟨msgNoContent, ?_, by decide, Or.inl ?_⟩ <;>
      simp [analyze_intent_node, mkInitialState, hg]
  · rcases cl with e | a
    · right
      refine ⟨msgLLMFail, ?_, by decide, Or.inl ?_⟩ <;>
        simp [analyze_intent_node, mkInitialState, hg]
    · by_cases hm : truthy mediaId = true
      · left
        simp [analyze_intent_node, mkInitialState, hg, hm]
      · have ht : truthy text = true := by
          cases htx : truthy text with
          | false => exact absurd ⟨htx, by simpa using hm⟩ hg
          | true => rfl
        by_cases hgr : a.intent = "greeting"
        · right
          refine ⟨msgGreeting, ?_, by decide, Or.inr (Or.inl ?_)⟩ <;>
            simp [analyze_intent_node, mkInitialState, hg, hm, hgr, ht]
        · by_cases hu : a.intent = "unknown"
          · right
            refine ⟨msgUnknown, ?_, by decide, Or.inr (Or.inr ?_)⟩ <;>
              simp [analyze_intent_node, mkInitialState, hg, hm, hgr, hu, ht]
          · left
            simp [analyze_intent_node, mkInitialState, hg, hm, hgr, hu, ht]

/-- From a response-free state, the Ingestion Structurer either leaves
the response unset or fails with the missing-fields message and no
product. -/
theorem structure_resp_of_none (fid : String) (s : AgentState) (h : s.response = none) :
    ((structure_ingestion_data_node fid s).response = none) ∨
    ((structure_ingestion_data_node fid s).response = some msgMissing ∧
     (structure_ingestion_data_node fid s).product_to_ingest = none) := by
  unfold structure_ingestion_data_node
  by_cases hg : truthy s.item_name = false ∧ truthy s.description = false
  · right
    rw [if_pos hg]
    exact ⟨rfl, rfl⟩
  · left
    rw [if_neg hg]
    exact h

/-- The Catalog Writer node on a state without a structured product
(lines 280-284). -/
theorem add_resp_of_no_product (res : Except Unit TaskInfo) (s : AgentState)
    (h : s.product_to_ingest = none) :
    (add_product_to_meili_node res s).1.response = some msgNoProduct := by
  simp [add_product_to_meili_node, h]

/-!
Claim theorems.  Concrete inputs used by witnesses and counterexamples
are declared next to the claim they serve.
-/

/-- Successful text-captioned media ingestion: the classifier returns an
ingest analysis, the backend write succeeds with a new-style envelope. -/
def c1Analysis : QueryAnalysis :=
  ⟨"ingest_product", some "bike", none, some 100, some "UGX"⟩

def c1Oracles : Oracles :=
  ⟨Except.ok c1Analysis, "id-1", Except.ok (TaskInfo.newStyle "42"), Except.ok []⟩

def c1Input : AgentState :=
  mkInitialState "256700000001" "image" (some "Selling bike 100 UGX") (some "M1")
    (some "image/jpeg") none (some "media_uploads/m1.jpg")

/-- Claim C1 is false of the code: on the successful ingestion path
(analyze, structure_ingestion_data, add_product_to_meili with a
recognised task id) the run reaches the terminal marker with the
response still unset, and no layer substitutes an apology: the graph has
no node after add_product_to_meili, and the handler only logs the final
response.  This run ends with the task enqueued, the backend write
invoked, and response = none. -/
theorem claim1_successful_ingestion_ends_without_response :
    (runGraph c1Oracles c1Input).final.response = none ∧
    (runGraph c1Oracles c1Input).final.meili_task_status = some "enqueued" ∧
    (runGraph c1Oracles c1Input).addDocumentsCalled = true := by
  refine ⟨rfl, rfl, rfl⟩

/-- Media message with no caption whose analysis extracts no item name:
the Structurer fails with the missing-fields message and the Writer node
then overwrites it. -/
def c2Analysis : QueryAnalysis := ⟨"ingest_product", none, none, none, none⟩

def c2Oracles : Oracles :=
  ⟨Except.ok c2Analysis, "id-2", Except.ok (TaskInfo.newStyle "43"), Except.ok []⟩

def c2Input : AgentState :=
  mkInitialState "256700000002" "image" none (some "M2") (some "image/jpeg") none
    (some "media_uploads/m2.jpg")

/-- Claim C2 as stated is false: in this run the Ingestion Structurer
sets the response to the missing-fields message (trace position 3) and
the Catalog Writer node, reached through the unconditional graph edge,
replaces it with a different string (trace position 4). -/
theorem claim2_response_overwritten_counterexample :
    (runGraph c2Oracles c2Input).trace.map (fun s => s.response) =
      [none, none, none, some msgMissing, some msgNoProduct] ∧
    msgMissing ≠ msgNoProduct := by
  refine ⟨rfl, by decide⟩

/-- Claim C2 amended: along every run from an initial handler state, a
response set at some step is never cleared and never replaced by a later
step, with the single exception that the Catalog Writer node replaces
the Structurer missing-fields message with its own structuring-error
message (the unconditional edge of line 417 runs it even after the
Structurer aborted). -/
theorem claim2_response_stable_amended (o : Oracles) (sender mtype : String)
    (text mediaId mime fname mpath : Option String) :
    List.Pairwise respStable
      (runGraph o (mkInitialState sender mtype text mediaId mime fname mpath)).trace := by
  set st := mkInitialState sender mtype text mediaId mime fname mpath with hst
  have h0 : st.response = none := rfl
  set s1 := (analyze_intent_node o.classify st).1 with hs1
  have hcases := analyze_initial_cases o.classify sender mtype text mediaId mime fname mpath
  rw [← hst] at hcases
  rw [← hs1] at hcases
  cases hd : (route_after_intent_analysis s1).2 with
  | search_meili =>
      obtain ⟨hint, hid⟩ := route_search_facts s1 hd
      have h1 : s1.response = none := by
        rcases hcases with h | ⟨r, hr, hne, h | h | h⟩
        · exact h
        all_goals (rw [hint] at h; simp at h)
      have h1x : (analyze_intent_node o.classify st).1.response = none := h1
      simp only [runGraph, hd, hid]
      simp [List.pairwise_cons, respStable, h0, h1, h1x]
  | structure_ingestion_data =>
      obtain ⟨hint, hid⟩ := route_structure_facts s1 hd
      have h1 : s1.response = none := by
        rcases hcases with h | ⟨r, hr, hne, h | h | h⟩
        · exact h
        all_goals (rw [hint] at h; simp at h)
      simp only [runGraph, hd, hid]
      have h3 := structure_resp_of_none o.freshId s1 h1
      simp only [List.pairwise_cons, List.mem_cons, List.mem_singleton]
      refine ⟨?_, ?_, ?_, ?_, ?_⟩
      · intro b _
        intro r hr
        rw [h0] at hr
        cases hr
      · intro b _
        intro r hr
        rw [h1] at hr
        cases hr
      · intro b _
        intro r hr
        rw [h1] at hr
        cases hr
      · intro b hb
        intro r hr
        rcases h3 with ⟨hn⟩ | ⟨hm, hp⟩
        · rw [hn] at hr
          cases hr
        · rw [hm] at hr
          cases hr
          rcases hb with hb | hb
          · right
            subst hb
            exact ⟨rfl, add_resp_of_no_product o.addDoc _ hp⟩
          · cases hb
      · simp
  | terminal =>
      simp only [runGraph, hd]
      simp only [List.pairwise_cons, List.mem_cons, List.mem_singleton]
      refine ⟨?_, ?_, ?_⟩
      · intro b _
        intro r hr
        rw [h0] at hr
        cases hr
      · intro b hb
        intro r hr
        rcases hcases with h | ⟨r2, hr2, hne, _⟩
        · rw [h] at hr
          cases hr
        · have ht : truthy s1.response = true := by
            rw [hr]
            rw [hr] at hr2
            cases hr2
            simp [truthy, hne]
          have hid := route_id_of_truthy s1 ht
          rcases hb with hb | hb
          · left
            subst hb
            rw [hid, hr]
          · cases hb
      · simp

/-- Witness for the amended C2 theorem at a concrete run. -/
theorem claim2_response_stable_amended_witness :
    List.Pairwise respStable (runGraph c2Oracles c2Input).trace :=
  claim2_response_stable_amended c2Oracles "256700000002" "image" none (some "M2")
    (some "image/jpeg") none (some "media_uploads/m2.jpg")

/-- Claim C3: when a media id is present (truthy, as the code tests it),
the classifier is always invoked — with the empty string when there is
no caption — and whenever the classifier returns (any analysis at all),
the intent after the classification step is ingest_product. -/
theorem claim3_media_forces_ingest (sender mtype : String)
    (text mediaId mime fname mpath : Option String)
    (cl : Except Unit QueryAnalysis) (hm : truthy mediaId = true) :
    ((analyze_intent_node cl
        (mkInitialState sender mtype text mediaId mime fname mpath)).2).isSome = true ∧
    (truthy text = false →
      (analyze_intent_node cl
        (mkInitialState sender mtype text mediaId mime fname mpath)).2 = some "") ∧
    (∀ a, cl = Except.ok a →
      (analyze_intent_node cl
        (mkInitialState sender mtype text mediaId mime fname mpath)).1.intent =
        some "ingest_product") := by
  refine ⟨?_, ?_, ?_⟩
  · rcases cl with e | a <;> simp [analyze_intent_node, mkInitialState, hm]
  · intro ht
    rcases cl with e | a <;> simp [analyze_intent_node, mkInitialState, hm, ht]
  · intro a ha
    subst ha
    simp [analyze_intent_node, mkInitialState, hm]

/-- Witness for C3: captionless image whose classifier output even says
greeting; the classifier is called with empty text and the intent is
still forced to ingest_product. -/
theorem claim3_media_forces_ingest_witness :
    (analyze_intent_node (Except.ok ⟨"greeting", none, none, none, none⟩)
      (mkInitialState "256700000003" "image" none (some "M3") (some "image/jpeg")
        none none)).2 = some "" ∧
    (analyze_intent_node (Except.ok ⟨"greeting", none, none, none, none⟩)
      (mkInitialState "256700000003" "image" none (some "M3") (some "image/jpeg")
        none none)).1.intent = some "ingest_product" :=
  ⟨(claim3_media_forces_ingest "256700000003" "image" none (some "M3")
      (some "image/jpeg") none none
      (Except.ok ⟨"greeting", none, none, none, none⟩) rfl).2.1 rfl,
   (claim3_media_forces_ingest "256700000003" "image" none (some "M3")
      (some "image/jpeg") none none
      (Except.ok ⟨"greeting", none, none, none, none⟩) rfl).2.2 _ rfl⟩

/-- Claim C4: a state reaching the Ingestion Structurer with item_name
and description both Python-falsy (absent or empty) aborts the branch:
the missing-fields response is set, no catalog item is produced, and the
Catalog Writer node — which the unconditional edge still runs — never
invokes the backend write add_documents. -/
theorem claim4_missing_fields_aborts (s : AgentState) (fid : String)
    (res : Except Unit TaskInfo)
    (h1 : truthy s.item_name = false) (h2 : truthy s.description = false) :
    (structure_ingestion_data_node fid s).response = some msgMissing ∧
    (structure_ingestion_data_node fid s).product_to_ingest = none ∧
    (add_product_to_meili_node res (structure_ingestion_data_node fid s)).2 = false ∧
    (add_product_to_meili_node res
        (structure_ingestion_data_node fid s)).1.product_to_ingest = none := by
  simp only [structure_ingestion_data_node, if_pos (And.intro h1 h2)]
  simp [add_product_to_meili_node]

/-- Witness for C4 at a concrete state with both fields absent. -/
theorem claim4_missing_fields_aborts_witness :
    (structure_ingestion_data_node "id-4"
      (mkInitialState "256700000004" "text" (some "hello") none none none none)).response
      = some msgMissing ∧
    (add_product_to_meili_node (Except.ok (TaskInfo.newStyle "7"))
      (structure_ingestion_data_node "id-4"
        (mkInitialState "256700000004" "text" (some "hello") none none none none))).2
      = false :=
  ⟨(claim4_missing_fields_aborts
      (mkInitialState "256700000004" "text" (some "hello") none none none none)
      "id-4" (Except.ok (TaskInfo.newStyle "7")) rfl rfl).1,
   (claim4_missing_fields_aborts
      (mkInitialState "256700000004" "text" (some "hello") none none none none)
      "id-4" (Except.ok (TaskInfo.newStyle "7")) rfl rfl).2.2.1⟩

/-- Text-only ingestion whose classifier extracts no currency: the state
reaches the Structurer with currency = none. -/
def c5Analysis : QueryAnalysis := ⟨"ingest_product", some "bike", none, some 100, none⟩

def c5Oracles : Oracles :=
  ⟨Except.ok c5Analysis, "id-5", Except.ok (TaskInfo.newStyle "44"), Except.ok []⟩

def c5Input : AgentState :=
  mkInitialState "256700000005" "text" (some "selling a bike at 100") none none none none

/-- Claim C5 is false of the code: with the state currency unspecified
(the key holds None, as in every run where no currency is extracted),
the constructed catalog record carries currency None, not the UGX
default — state.get with a default returns the stored None because the
key is always present, so the intended default of line 236 is dead. -/
theorem claim5_currency_default_never_applies :
    (runGraph c5Oracles c5Input).final.currency = none ∧
    ((runGraph c5Oracles c5Input).final.product_to_ingest).map
        (fun p => p.currency) = some none ∧
    some (none : Option String) ≠ some (some "UGX") := by
  refine ⟨rfl, rfl, by decide⟩

/-- Claim C6: with a structured product present and the async task
fields unset (as in every run reaching the Writer), a raised backend
write sets the generic ingestion-failure response and leaves both task
fields unset; an unrecognisable response envelope sets the task-id
extraction error response and leaves both task fields unset; a
recognised envelope sets the task id and the enqueued status. -/
theorem claim6_writer_failure_handling (s : AgentState) (pd : ProductData)
    (hp : s.product_to_ingest = some pd)
    (ht : s.meili_task_id = none) (hs : s.meili_task_status = none) :
    (∀ e : Unit,
      (add_product_to_meili_node (Except.error e) s).1.response = some msgAddErr ∧
      (add_product_to_meili_node (Except.error e) s).1.meili_task_id = none ∧
      (add_product_to_meili_node (Except.error e) s).1.meili_task_status = none) ∧
    (∀ ti : TaskInfo, extractTaskId ti = none →
      (add_product_to_meili_node (Except.ok ti) s).1.response = some msgTaskIdErr ∧
      (add_product_to_meili_node (Except.ok ti) s).1.meili_task_id = none ∧
      (add_product_to_meili_node (Except.ok ti) s).1.meili_task_status = none) ∧
    (∀ (ti : TaskInfo) (tid : String), extractTaskId ti = some tid →
      (add_product_to_meili_node (Except.ok ti) s).1.meili_task_id = some tid ∧
      (add_product_to_meili_node (Except.ok ti) s).1.meili_task_status
        = some "enqueued") := by
  refine ⟨fun e => ?_, fun ti hti => ?_, fun ti tid hti => ?_⟩
  · simp [add_product_to_meili_node, hp, ht, hs]
  · simp [add_product_to_meili_node, hp, hti, ht, hs]
  · simp [add_product_to_meili_node, hp, hti]

def c6Product : ProductData :=
  { id := "id-6", name := "bike", description := "a bike", price := some 100,
    currency := some "UGX", category := "Unknown", vendor := some "256700000006",
    media_path := none }

def c6State : AgentState :=
  { mkInitialState "256700000006" "text" (some "selling a bike") none none none none with
      intent := some "ingest_product", product_to_ingest := some c6Product }

/-- Witness for C6: a raised write leaves the task fields unset, and a
legacy-envelope success enqueues the task. -/
theorem claim6_writer_failure_handling_witness :
    (add_product_to_meili_node (Except.error ()) c6State).1.meili_task_status = none ∧
    (add_product_to_meili_node (Except.ok (TaskInfo.legacyDict "9"))
        c6State).1.meili_task_status = some "enqueued" :=
  ⟨((claim6_writer_failure_handling c6State c6Product rfl rfl rfl).1 ()).2.2,
   ((claim6_writer_failure_handling c6State c6Product rfl rfl rfl).2.2
      (TaskInfo.legacyDict "9") "9" rfl).2⟩

/-- Claim C7: an input with neither text nor media (Python-falsy) makes
the classification step set intent = error with the no-content response,
and neither the classifier nor any other backend is invoked in that run. -/
theorem claim7_no_content_short_circuit (sender mtype : String)
    (text mediaId mime fname mpath : Option String) (o : Oracles)
    (h1 : truthy text = false) (h2 : truthy mediaId = false) :
    (runGraph o (mkInitialState sender mtype text mediaId mime fname mpath)).final.intent
        = some "error" ∧
    (runGraph o (mkInitialState sender mtype text mediaId mime fname mpath)).final.response
        = some msgNoContent ∧
    (runGraph o (mkInitialState sender mtype text mediaId mime fname mpath)).classifierCall
        = none ∧
    (runGraph o (mkInitialState sender mtype text mediaId mime fname mpath)).addDocumentsCalled
        = false ∧
    (runGraph o (mkInitialState sender mtype text mediaId mime fname mpath)).searchCalled
        = false := by
  have ha := analyze_no_content o.classify
    (mkInitialState sender mtype text mediaId mime fname mpath) h1 h2
  have hroute := route_error_truthy
    ({ mkInitialState sender mtype text mediaId mime fname mpath with
        intent := some "error", response := some msgNoContent }) rfl rfl
  simp [runGraph, ha, hroute]

def c7Oracles : Oracles :=
  ⟨Except.error (), "id-7", Except.error (), Except.error ()⟩

/-- Witness for C7 on a sticker-like message with no text and no media id. -/
theorem claim7_no_content_short_circuit_witness :
    (runGraph c7Oracles
      (mkInitialState "256700000007" "sticker" none none none none none)).final.intent
      = some "error" ∧
    (runGraph c7Oracles
      (mkInitialState "256700000007" "sticker" none none none none none)).classifierCall
      = none :=
  ⟨(claim7_no_content_short_circuit "256700000007" "sticker" none none none none none
      c7Oracles rfl rfl).1,
   (claim7_no_content_short_circuit "256700000007" "sticker" none none none none none
      c7Oracles rfl rfl).2.2.1⟩

def c8GreetingState : AgentState :=
  { mkInitialState "256700000008" "text" (some "hello") none none none none with
      intent := some "greeting" }

/-- Claim C8 as stated is false: the greeting branch of the router
returns the terminal decision without filling an unset response (the
canned greeting is set by the classification step, not the router), so
not every terminal path leaves the router with response set. -/
theorem claim8_router_greeting_counterexample :
    (route_after_intent_analysis c8GreetingState).2 = RouteDecision.terminal ∧
    c8GreetingState.response = none ∧
    (route_after_intent_analysis c8GreetingState).1.response = none := by
  refine ⟨rfl, rfl, rfl⟩

/-- Claim C8 amended: the router is a pure function that mutates no
field but response; it returns non-terminal decisions with the state
untouched; it never touches a truthy response; a state with unset
response is filled exactly on the query-without-item and the
error-or-unexpected terminal paths, while the greeting and unknown
terminal paths return the state unchanged. -/
theorem claim8_router_frame_amended (s : AgentState) :
    ((route_after_intent_analysis s).1 =
      { s with response := (route_after_intent_analysis s).1.response }) ∧
    ((route_after_intent_analysis s).2 = RouteDecision.search_meili ∨
     (route_after_intent_analysis s).2 = RouteDecision.structure_ingestion_data →
      (route_after_intent_analysis s).1 = s) ∧
    (truthy s.response = true → (route_after_intent_analysis s).1 = s) ∧
    (s.intent = some "query_product" → truthy s.item_name = false →
      truthy s.response = false →
      (route_after_intent_analysis s).1.response = some msgNoItem ∧
      (route_after_intent_analysis s).2 = RouteDecision.terminal) ∧
    (s.intent = some "greeting" ∨ s.intent = some "unknown" →
      (route_after_intent_analysis s).1 = s ∧
      (route_after_intent_analysis s).2 = RouteDecision.terminal) ∧
    (s.intent ≠ some "query_product" → s.intent ≠ some "ingest_product" →
      s.intent ≠ some "greeting" → s.intent ≠ some "unknown" →
      truthy s.response = false →
      (route_after_intent_analysis s).1.response = some msgIssue ∧
      (route_after_intent_analysis s).2 = RouteDecision.terminal) := by
  obtain ⟨sid, mtyp, itext, imid, imime, ifn, impath, intent, iname, loc,
    price, curr, desc, pti, filt, sres, resp, tid, tstat⟩ := s
  unfold route_after_intent_analysis
  by_cases hq : intent = some "query_product" <;>
  by_cases hg : intent = some "ingest_product" <;>
  by_cases hgr : intent = some "greeting" <;>
  by_cases hu : intent = some "unknown" <;>
  by_cases hi : truthy iname = true <;>
  by_cases hr : truthy resp = true <;>
    simp_all

def c8ErrorState : AgentState :=
  { mkInitialState "256700000008" "text" (some "??") none none none none with
      intent := some "bogus" }

/-- Witness for amended C8: an unexpected intent with unset response is
filled with the generic issue message on the terminal path. -/
theorem claim8_router_frame_amended_witness :
    (route_after_intent_analysis c8ErrorState).1.response = some msgIssue ∧
    (route_after_intent_analysis c8ErrorState).2 = RouteDecision.terminal :=
  (claim8_router_frame_amended c8ErrorState).2.2.2.2.2
    (by decide) (by decide) (by decide) (by decide) rfl

/-- Claim C9: on a search run (query present and truthy, intent not
error) whose backend returns hits, the response depends only on the
first three hits, and for nonempty hits it ends with the hit lines of
exactly the first three hits in the order received, each formatted with
name, price, currency and vendor; with zero hits the response contains
the literal query term and, when a location is present, the location. -/
theorem claim9_search_formatting (s : AgentState) (q : String) (hits : List Hit)
    (hq : s.item_name = some q) (hne : q ≠ "") (hi : s.intent ≠ some "error") :
    (search_meilisearch_node (Except.ok hits) s).2 = true ∧
    (search_meilisearch_node (Except.ok hits) s).1.search_results = some hits ∧
    ((search_meilisearch_node (Except.ok hits) s).1.response =
      (search_meilisearch_node (Except.ok (hits.take 3)) s).1.response) ∧
    (hits ≠ [] → ∃ a, (search_meilisearch_node (Except.ok hits) s).1.response =
      some (a ++ String.intercalate "\n" ((hits.take 3).map formatHit))) ∧
    (hits = [] →
      (∃ b, (search_meilisearch_node (Except.ok hits) s).1.response =
        some ("I couldn\x27t find any \x27" ++ (q ++ b))) ∧
      (∀ loc, loc ≠ "" → s.location = some loc →
        ∃ a b, (search_meilisearch_node (Except.ok hits) s).1.response =
          some (a ++ (loc ++ b)))) := by
  have hguard : ¬ (truthy s.item_name = false ∨ s.intent = some "error") := by
    simp [hq, truthy, hne, hi]
  simp only [search_meilisearch_node, if_neg hguard]
  refine ⟨?_, ?_, ?_, ?_, ?_⟩
  · by_cases hz : hits = [] <;> simp [hz]
  · by_cases hz : hits = [] <;> simp [hz]
  · by_cases hz : hits = []
    · simp [hz]
    · have hz3 : hits.take 3 ≠ [] := by
        cases hits with
        | nil => exact absurd rfl hz
        | cons x xs => simp
      simp [if_neg hz, if_neg hz3, List.take_take]
  · intro hz
    simp only [if_neg hz]
    exact ⟨_, rfl⟩
  · intro hz
    subst hz
    rw [if_pos rfl]
    constructor
    · refine ⟨"\x27" ++ (if truthy s.location = true
          then " in " ++ s.location.getD "" ++ "." else "."), ?_⟩
      rw [hq]
      simp only [Option.getD_some, String.append_assoc]
    · intro loc hlocne hloc
      have hlt : truthy s.location = true := by
        rw [hloc]; simp [truthy, hlocne]
      refine ⟨"I couldn\x27t find any \x27" ++ q ++ "\x27" ++ " in ", ".", ?_⟩
      rw [hq, if_pos hlt, hloc]
      simp only [Option.getD_some, String.append_assoc]

def c9State : AgentState :=
  { mkInitialState "256700000009" "text" (some "iphone price") none none none none with
      intent := some "query_product", item_name := some "iphone",
      location := some "Kampala" }

def c9Hits : List Hit :=
  [{ name := some "iPhone 12", price := some 2000000, currency := some "UGX",
     vendor := some "v1" },
   { name := some "iPhone 13", price := none, currency := none, vendor := none },
   { name := some "iPhone 11", price := some 1500000, currency := some "UGX",
     vendor := some "v2" },
   { name := some "iPhone X", price := some 900000, currency := some "UGX",
     vendor := some "v3" }]

/-- Witness for C9: four hits produce the same response as their first
three, and the zero-hit case mentions both the query and the location. -/
theorem claim9_search_formatting_witness :
    ((search_meilisearch_node (Except.ok c9Hits) c9State).1.response =
      (search_meilisearch_node (Except.ok (c9Hits.take 3)) c9State).1.response) ∧
    (∃ a b, (search_meilisearch_node (Except.ok ([] : List Hit)) c9State).1.response =
      some (a ++ ("Kampala" ++ b))) :=
  ⟨(claim9_search_formatting c9State "iphone" c9Hits rfl (by decide) (by decide)).2.2.1,
   ((claim9_search_formatting c9State "iphone" [] rfl (by decide) (by decide)).2.2.2.2
      rfl).2 "Kampala" (by decide) rfl⟩

/-- Claim C10: reaching the search node with item_name falsy or intent
error performs no backend search, stores the empty hit list, fills the
fallback message exactly when the response was unset, and keeps any
non-empty response already present (every response the pipeline writes
is a non-empty literal, so set-but-empty responses do not occur on
runs). -/
theorem claim10_search_guard (s : AgentState) (res : Except Unit (List Hit))
    (h : truthy s.item_name = false ∨ s.intent = some "error") :
    (search_meilisearch_node res s).2 = false ∧
    (search_meilisearch_node res s).1.search_results = some [] ∧
    (s.response = none → (search_meilisearch_node res s).1.response = some msgNoQuery) ∧
    (∀ t, t ≠ "" → s.response = some t →
      (search_meilisearch_node res s).1.response = some t) := by
  unfold search_meilisearch_node
  rw [if_pos h]
  refine ⟨rfl, rfl, fun hr => ?_, fun t hne hr => ?_⟩
  · simp [hr, truthy]
  · simp [hr, truthy, hne]

def c10State : AgentState :=
  { mkInitialState "256700000010" "text" (some "search please") none none none none with
      intent := some "query_product" }

/-- Witness for C10: no item name means no backend call and the
fallback message. -/
theorem claim10_search_guard_witness :
    (search_meilisearch_node (Except.ok c9Hits) c10State).2 = false ∧
    (search_meilisearch_node (Except.ok c9Hits) c10State).1.response = some msgNoQuery :=
  ⟨(claim10_search_guard c10State (Except.ok c9Hits) (Or.inl rfl)).1,
   (claim10_search_guard c10State (Except.ok c9Hits) (Or.inl rfl)).2.2.1 rfl⟩
